import Mathlib

/-!
Verification of the core data-fetch layer of the Indian Market Indices
Dashboard (src/app.py): the retrying quote fetcher `fetch_indicator`, the
batch aggregator `fetch_all_indicators`, the result cache, and the label
filtering applied before rendering.

Strings are embedded as lists of characters (`Str`), machine floats as
`PyFloat` — an exact rational in the finite case, plus the infinities
and NaN — and Python exceptions as an explicit error type threaded
through `Except`.
-/

/-- Strings of the Python program, embedded as lists of characters. -/
abbrev Str := List Char

/-- An instrument spec: one entry of the configured `INDICATORS` list,
a pair of upstream code and human-readable label (src/app.py lines 41-69). -/
structure InstrumentSpec where
  code : Str
  label : Str
deriving DecidableEq, Repr

/-- The value of a Python float: an IEEE double, modelled exactly — a
rational in the finite case (rounding to the nearest representable
double is idealized away), or one of the two infinities, or NaN.
`float("inf")` and `float("nan")` succeed in Python, so these values
can reach a Quote. -/
inductive PyFloat where
  | finite (q : Rat)
  | inf (neg : Bool)
  | nan
deriving DecidableEq, Repr

/-- A quote record as returned by `fetch_indicator` (src/app.py line 98):
the dict with keys label, price, change, pct, each a Python float. -/
structure Quote where
  label : Str
  price : PyFloat
  change : PyFloat
  pct : PyFloat
deriving DecidableEq, Repr

/-- The kinds of Python exception the body of one fetch attempt can raise
(src/app.py lines 88-99): connection errors from `requests.get`, the
`HTTPError` of `raise_for_status`, JSON decoding errors of `resp.json()`,
the explicit `ValueError` for an invalid body (which embeds the label in
its message), `AttributeError` from calling `.get`/`.replace` on a
non-dict/non-string, and `ValueError` from `float()` on a bad literal. -/
inductive Err where
  | network
  | httpStatus (status : Nat)
  | jsonDecode
  | malformed (label : Str)
  | attrError
  | parseError
deriving DecidableEq, Repr

/-- JSON values, as produced by `resp.json()`. -/
inductive Json where
  | null
  | bool (b : Bool)
  | num (q : Rat)
  | str (s : Str)
  | arr (elems : List Json)
  | obj (fields : List (Str × Json))

/-- Key lookup in a JSON object, as in Python dict indexing / `in`. -/
def jsonLookup : List (Str × Json) → Str → Option Json
  | [], _ => none
  | (k, v) :: rest, key => if k = key then some v else jsonLookup rest key

/-- ASCII digit test, as used by `float()` parsing. -/
def isDigitCh (c : Char) : Bool := '0' ≤ c && c ≤ '9'

/-- Numeric value of a digit string, most significant first. -/
def digitsToNat (ds : Str) : Nat := ds.foldl (fun acc c => acc * 10 + (c.toNat - 48)) 0

/-- ASCII lower-casing of one character, used by `float()`'s
case-insensitive `inf`/`nan` keywords and by the case-insensitive label
matching. -/
def lowerChar (c : Char) : Char :=
  if 'A' ≤ c && c ≤ 'Z' then Char.ofNat (c.toNat + 32) else c

/-- ASCII whitespace stripped by Python `float()` around its argument
(space, tab, newline, carriage return, vertical tab, form feed;
non-ASCII whitespace is out of scope). -/
def isPySpace (c : Char) : Bool :=
  c = ' ' || c = '\t' || c = '\n' || c = '\r' || c = '\x0b' || c = '\x0c'

/-- Leading and trailing whitespace removal. -/
def trimPy (s : Str) : Str :=
  ((s.dropWhile isPySpace).reverse.dropWhile isPySpace).reverse

/-- Splitting of an optional leading sign; returns whether it was `-`
and the remainder. -/
def splitSign : Str → Bool × Str
  | '+' :: t => (false, t)
  | '-' :: t => (true, t)
  | t => (false, t)

/-- Continuation of a digit group after a first digit: consumes the
maximal run of digits where a single underscore may stand between two
digits (Python's `1_000` literals); an ill-placed underscore stops the
run and is left in the remainder, failing the surrounding parse. -/
def takeDigitsU : Str → Str × Str
  | [] => ([], [])
  | ['_'] => ([], ['_'])
  | '_' :: c :: rest =>
      if isDigitCh c then
        let p := takeDigitsU rest
        (c :: p.1, p.2)
      else ([], '_' :: c :: rest)
  | c :: rest =>
      if isDigitCh c then
        let p := takeDigitsU rest
        (c :: p.1, p.2)
      else ([], c :: rest)

/-- One `digitpart` of Python's float grammar: a digit followed by
digits with optional single underscores between them.  Returns the
digits with underscores removed and the remainder, or nothing when the
input does not start with a digit. -/
def takeDigitPart (s : Str) : Option (Str × Str) :=
  match s with
  | c :: rest =>
      if isDigitCh c then
        let p := takeDigitsU rest
        some (c :: p.1, p.2)
      else none
  | [] => none

/-- The optional exponent tail of a float literal: empty, or `e`/`E`
with an optional sign and a digitpart consuming the whole remainder. -/
def parseExpPart : Str → Option Int
  | [] => some 0
  | c :: rest =>
      if c = 'e' || c = 'E' then
        let sn := splitSign rest
        match takeDigitPart sn.2 with
        | some (es, []) =>
            some (if sn.1 then -(digitsToNat es : Int) else (digitsToNat es : Int))
        | _ => none
      else none

/-- Exact value of mantissa digits with `fracLen` of them after the
decimal point, scaled by `10 ^ e`. -/
def applyExp (mant : Nat) (fracLen : Nat) (e : Int) : Rat :=
  if 0 ≤ e then mkRat (mant * 10 ^ e.toNat) (10 ^ fracLen)
  else mkRat mant (10 ^ fracLen * 10 ^ (-e).toNat)

/-- An unsigned numeric float literal, consuming the whole string:
`digitpart`, `digitpart "." [digitpart]` or `"." digitpart`, each with
an optional exponent. -/
def parseNumeric (s : Str) : Option Rat :=
  let ipr : Option Str × Str :=
    match takeDigitPart s with
    | some (ds, r) => (some ds, r)
    | none => (none, s)
  match ipr.1, ipr.2 with
  | ip, '.' :: rest2 =>
      match takeDigitPart rest2 with
      | some (fs, rest3) =>
          match parseExpPart rest3 with
          | some e => some (applyExp (digitsToNat ((ip.getD []) ++ fs)) fs.length e)
          | none => none
      | none =>
          match ip with
          | none => none
          | some ds =>
              match parseExpPart rest2 with
              | some e => some (applyExp (digitsToNat ds) 0 e)
              | none => none
  | none, _ => none
  | some ds, rest =>
      match parseExpPart rest with
      | some e => some (applyExp (digitsToNat ds) 0 e)
      | none => none

/-- Python `float(s)`: strips surrounding whitespace, then accepts an
optional sign followed by `inf`/`infinity`/`nan` (case-insensitive) or
a decimal literal — digits with optional single underscores between
digits, an optional fraction, an optional `e`/`E` exponent.  Finite
values are kept as exact rationals (IEEE rounding to the nearest
double is idealized away); non-ASCII digits and whitespace are out of
scope.  Returns nothing exactly when `float()` raises `ValueError`. -/
def pyFloat (s : Str) : Option PyFloat :=
  let t := trimPy s
  let sn := splitSign t
  let low := sn.2.map lowerChar
  if low = "inf".toList || low = "infinity".toList then some (.inf sn.1)
  else if low = "nan".toList then some .nan
  else
    match parseNumeric sn.2 with
    | some v => some (.finite (if sn.1 then -v else v))
    | none => none

/-- Evaluation of `float(s.replace(strip, ""))` on a field string `s`:
every occurrence of the `strip` character is removed (`,` for
price/change, `%` for pct) and the result parsed by `float`, whose
failure is a `ValueError`. -/
def parseFieldStr (s : Str) (strip : Char) : Except Err PyFloat :=
  match pyFloat (s.filter (fun c => c ≠ strip)) with
  | some v => .ok v
  | none => .error .parseError

/-- Evaluation of `float(data.get(key, "0").replace(strip, ""))`
(src/app.py lines 95-97): a missing key defaults to the string "0" and
goes through the same replace-and-parse path; a present non-string
value has no `.replace` method, raising `AttributeError`. -/
def parseNumField (dfields : List (Str × Json)) (key : Str) (strip : Char) : Except Err PyFloat :=
  match jsonLookup dfields key with
  | none => parseFieldStr ("0".toList) strip
  | some (.str s) => parseFieldStr s strip
  | some _ => .error .attrError

/-- The observable upstream behaviour of one attempt: either the request
raises (connection error / timeout), or a response arrives with a status
code and a body that either decodes as JSON or does not. -/
inductive AttemptInput where
  | netFail
  | resp (status : Nat) (body : Option Json)

/-- Extraction of the three numeric fields from the `data` dict, in the
order the source evaluates them — price, change, pct (src/app.py lines
95-98); the first exception aborts the attempt. -/
def parseDataObj (label : Str) (dfields : List (Str × Json)) : Except Err Quote :=
  match parseNumField dfields ("pricecurrent".toList) ',' with
  | .error e => .error e
  | .ok price =>
    match parseNumField dfields ("pricechange".toList) ',' with
    | .error e => .error e
    | .ok change =>
      match parseNumField dfields ("pricepercentchange".toList) '%' with
      | .error e => .error e
      | .ok pct => .ok { label := label, price := price, change := change, pct := pct }

/-- Processing of a decoded JSON body (src/app.py lines 92-98): the
validation `isinstance(parsed, dict) and "data" in parsed and
parsed["data"] is not None` raises `ValueError` when it fails; a `data`
value that is not a dict has no `.get`, raising `AttributeError`;
otherwise the numeric fields are extracted. -/
def parseQuote (label : Str) (parsed : Json) : Except Err Quote :=
  match parsed with
  | Json.obj fields =>
    match jsonLookup fields ("data".toList) with
    | none => .error (.malformed label)
    | some Json.null => .error (.malformed label)
    | some (Json.obj dfields) => parseDataObj label dfields
    | some _ => .error .attrError
  | _ => .error (.malformed label)

/-- One attempt of the `try` body of `fetch_indicator` (src/app.py lines
89-98): `requests.get` (network failure raises), `raise_for_status`
(raises on status >= 400), `resp.json()` (raises if the body is not
JSON), then the body processing of `parseQuote`. -/
def runAttempt (label : Str) (inp : AttemptInput) : Except Err Quote :=
  match inp with
  | .netFail => .error .network
  | .resp status body =>
    if 400 ≤ status then .error (.httpStatus status)
    else match body with
    | none => .error .jsonDecode
    | some parsed => parseQuote label parsed

/-- The observable outcome of one call to `fetch_indicator`: the value it
returns or the exception it raises (`.ok none` models the implicit
`return None` when the loop body never runs), the number of attempts
performed, and the log of `time.sleep` durations in order. -/
structure FetchTrace where
  result : Except Err (Option Quote)
  attempts : Nat
  sleepLog : List Nat

/-- The retry loop `for attempt in range(retries)` of `fetch_indicator`
(src/app.py lines 87-103), with the outcome of each attempt given by
`outcome` (indexed from `start`) and `remaining` iterations left: a
successful attempt returns its Quote at once; a failed attempt sleeps
`delay` and retries while `attempt < retries - 1`, and re-raises its
exception on the final iteration. -/
def fetchGo (outcome : Nat → Except Err Quote) (delay : Nat) : Nat → Nat → FetchTrace
  | _, 0 => { result := .ok none, attempts := 0, sleepLog := [] }
  | start, r + 1 =>
    match outcome start with
    | .ok q => { result := .ok (some q), attempts := 1, sleepLog := [] }
    | .error e =>
      if r = 0 then { result := .error e, attempts := 1, sleepLog := [] }
      else
        let t := fetchGo outcome delay (start + 1) r
        { result := t.result, attempts := t.attempts + 1, sleepLog := delay :: t.sleepLog }

/-- The function `fetch_indicator(code, label, retries, delay)`
(src/app.py lines 85-103).  The instrument `code` only selects the
request URL, so the network is abstracted as `upstream`, giving the
observable behaviour of attempt `i` against that URL.  `retries` is a
Python int, so an `Int` here; the loop runs `max retries 0` iterations. -/
def fetch_indicator (code : Str) (upstream : Nat → AttemptInput) (label : Str)
    (retries : Int) (delay : Nat) : FetchTrace :=
  let _ := code
  fetchGo (fun i => runAttempt label (upstream i)) delay 0 retries.toNat

/-- The configured instrument list `INDICATORS` (src/app.py lines 41-69). -/
def INDICATORS : List InstrumentSpec :=
  [⟨"in;cjn".toList, "Nifty Commodities".toList⟩,
   ⟨"in;nnx".toList, "Nifty Energy".toList⟩,
   ⟨"in;cnxt".toList, "Nifty FMCG".toList⟩,
   ⟨"in;ncx".toList, "Nifty Healthcare".toList⟩,
   ⟨"in;cnxs".toList, "Nifty Infrastructure".toList⟩,
   ⟨"in;mfy".toList, "Nifty IT".toList⟩,
   ⟨"mc;nscapf".toList, "Nifty Private Banks".toList⟩,
   ⟨"in;IDXN".toList, "Nifty Public Sector".toList⟩,
   ⟨"in;cnxa".toList, "Nifty Auto".toList⟩,
   ⟨"in;cnit".toList, "Nifty IT Services".toList⟩,
   ⟨"in;cuk".toList, "Nifty Media".toList⟩,
   ⟨"in;cnxf".toList, "Nifty Financial Services".toList⟩,
   ⟨"in;cpr".toList, "Nifty Pharma".toList⟩,
   ⟨"in;cfm".toList, "Nifty Metal".toList⟩,
   ⟨"in;CNXM".toList, "Nifty Midcap".toList⟩,
   ⟨"in;crl".toList, "Nifty Realty".toList⟩,
   ⟨"in;cnmx".toList, "Nifty Smallcap".toList⟩,
   ⟨"in;cgy".toList, "Nifty Green Energy".toList⟩,
   ⟨"in;nxb".toList, "Nifty Banks".toList⟩,
   ⟨"in;cfr".toList, "Nifty Retail".toList⟩,
   ⟨"in;cnxz".toList, "Nifty Oil & Gas".toList⟩,
   ⟨"in;cnxc".toList, "Nifty Consumer Durables".toList⟩,
   ⟨"in;cps".toList, "Nifty PSU Banks".toList⟩,
   ⟨"in;crv".toList, "Nifty Value 20".toList⟩,
   ⟨"mc;oilgas".toList, "MC Oil & Gas".toList⟩,
   ⟨"mc;nmidcaps".toList, "MC Nifty Midcaps".toList⟩,
   ⟨"mc;nm150qlty".toList, "MC Nifty150 Quality 30".toList⟩]

/-- The batch loop of `fetch_all_indicators` (src/app.py lines 106-114)
over an arbitrary spec list, with the post-retry outcome of the fetch for
each spec given by `fetchRes`: a success appends its record, a failure
emits one `st.warning` (modelled as the pair of the failed label and the
exception) and is skipped.  Returns the records and the warnings. -/
def fetch_all_indicators (fetchRes : InstrumentSpec → Except Err Quote) :
    List InstrumentSpec → List Quote × List (Str × Err)
  | [] => ([], [])
  | s :: rest =>
    let t := fetch_all_indicators fetchRes rest
    match fetchRes s with
    | .ok r => (r :: t.1, t.2)
    | .error e => (t.1, (s.label, e) :: t.2)

/-- The cache TTL configured on `fetch_all_indicators` by
`@st.cache_data(ttl=300)` (src/app.py line 105). -/
def CACHE_TTL : Nat := 300

/-- The cache entry of the Result Cache: the memoized QuoteSet with its
creation timestamp, or nothing before the first call. -/
structure CacheState where
  entry : Option (List Quote × Nat)
deriving DecidableEq

/-- The observable outcome of one cached call: the QuoteSet handed to the
caller, the cache state afterwards, and how many upstream batch fetches
the call triggered. -/
structure CacheCall where
  value : List Quote
  state : CacheState
  fetches : Nat
deriving DecidableEq

/-- Modelled from the spec: the memoization that `st.cache_data(ttl=...)`
applies to `fetch_all_indicators` is Streamlit library code, not part of
this repository, so its contract is taken from spec section 4.3
(`getOrFetch`): on the first call, or when the cached entry's age exceeds
`ttl`, run the batch aggregator (whose fresh result is `batch`), store it
with the current timestamp replacing any prior entry wholesale, and
return it; within `ttl`, return the stored QuoteSet with no new fetch. -/
def getOrFetch (batch : List Quote) (ttl now : Nat) (s : CacheState) : CacheCall :=
  match s.entry with
  | none => { value := batch, state := { entry := some (batch, now) }, fetches := 1 }
  | some (v, created) =>
      if now - created > ttl then
        { value := batch, state := { entry := some (batch, now) }, fetches := 1 }
      else
        { value := v, state := s, fetches := 0 }

/-- Characters that are special in a Python regular expression; a
pattern avoiding all of them except `.` lies in the fragment modelled
by `regexSearch`. -/
def isRegexMeta (c : Char) : Bool :=
  c = '.' || c = '^' || c = '$' || c = '*' || c = '+' || c = '?' ||
  c = '\x7b' || c = '\x7d' || c = '[' || c = ']' || c = '\\' ||
  c = '|' || c = '(' || c = ')'

/-- Membership in the regex fragment modelled here: every character of
the pattern is either the `.` wildcard or a non-metacharacter matched
literally. -/
def inRegexFragment (q : Str) : Bool :=
  q.all (fun c => c = '.' || !isRegexMeta c)

/-- Anchored match of a fragment pattern against the start of a string,
case-insensitively: `.` matches any character except newline (as in
`re` without DOTALL), a literal character matches its case-folded
self. -/
def matchAt : Str → Str → Bool
  | [], _ => true
  | _ :: _, [] => false
  | p :: ps, c :: cs =>
      (if p = '.' then c ≠ '\n' else lowerChar p = lowerChar c) && matchAt ps cs

/-- Models `df["label"].str.contains(pat, case=False)` for one label
(src/app.py line 167), i.e. Python `re.search` with `IGNORECASE`, for
patterns inside `inRegexFragment` — literal characters and the `.`
wildcard, where `re.search` semantics is: the pattern matches at some
position of the string.  Patterns using other metacharacters
(quantifiers, classes, anchors, alternation, groups) or invalid
patterns (which raise `re.error` in pandas) are outside the modelled
fragment, and the filtering theorems carry an `inRegexFragment`
hypothesis restricting the query to it. -/
def regexSearch (pat : Str) : Str → Bool
  | [] => matchAt pat []
  | c :: cs => matchAt pat (c :: cs) || regexSearch pat (cs)

/-- Anchored case-insensitive literal match of `q` at the start of a
string. -/
def litMatchAt : Str → Str → Bool
  | [], _ => true
  | _ :: _, [] => false
  | p :: ps, c :: cs => (lowerChar p = lowerChar c) && litMatchAt ps cs

/-- Case-insensitive substring containment: `q` occurs literally at some
position of the string. -/
def containsCI (q : Str) : Str → Bool
  | [] => litMatchAt q []
  | c :: cs => litMatchAt q (c :: cs) || containsCI q (cs)

/-- The data filtering applied to the fetched QuoteSet (src/app.py lines
163-167) at the level of the row list: a non-empty sector selection
keeps the rows whose label is in it (`isin`), then a non-empty search
query keeps the rows whose label matches it as a case-insensitive
regular expression (`str.contains(query, case=False)`). -/
def applyFilters (qs : List Quote) (selection : List Str) (query : Str) : List Quote :=
  let d1 := if selection.isEmpty then qs else qs.filter (fun r => selection.contains r.label)
  if query.isEmpty then d1 else d1.filter (fun r => regexSearch query r.label)

/-- The filter operation as the specification words it, for comparison
with `applyFilters`: keep exactly the quotes whose label is a member of
the selected set and, when the query is non-empty, whose label contains
the query as a case-insensitive substring. -/
def specFilter (qs : List Quote) (selection : List Str) (query : Str) : List Quote :=
  qs.filter (fun r => selection.contains r.label && (query.isEmpty || containsCI query r.label))

/-- Removal of one trailing percent sign, the normalization the
specification describes for the percent-change field. -/
def stripTrailingPct (s : Str) : Str :=
  if s.getLast? = some '%' then s.dropLast else s

/-- A pandas DataFrame of quote rows, reduced to what the rendering path
observes: the rows, and whether the frame has the label/price/change/pct
columns.  `pd.DataFrame(records)` takes its columns from the records, so
a frame built from an empty records list has no columns at all. -/
structure DFrame where
  rows : List Quote
  hasCols : Bool
deriving DecidableEq

/-- Construction `pd.DataFrame(records)` (src/app.py line 114). -/
def mkDataFrame (records : List Quote) : DFrame :=
  { rows := records, hasCols := !records.isEmpty }

/-- The Python exception the rendering path can raise: the `KeyError`
from indexing a missing DataFrame column. -/
inductive PyErr where
  | keyError
deriving DecidableEq

/-- What the consumer-facing page shows: the no-data warning for an empty
frame (src/app.py line 170), or the dashboard built from the rows. -/
inductive RenderOutcome where
  | noData
  | dashboard (rows : List Quote)
deriving DecidableEq

/-- Boolean-mask filtering `df[df["label"].<mask>]`: the column access
`df["label"]` raises `KeyError` when the frame lacks the column;
otherwise the mask keeps the rows satisfying the predicate and the
columns are preserved. -/
def maskByLabel (df : DFrame) (p : Quote → Bool) : Except PyErr DFrame :=
  if df.hasCols then .ok { rows := df.rows.filter p, hasCols := df.hasCols }
  else .error .keyError

/-- The consumer-facing path from the fetched records to what is shown
(src/app.py lines 114 and 163-170): build the DataFrame, apply the
selection filter if a selection was made, apply the search filter if a
query was typed, then either show the no-data warning (empty frame) or
render the dashboard. -/
def renderPipeline (records : List Quote) (selection : List Str) (query : Str) :
    Except PyErr RenderOutcome :=
  let df := mkDataFrame records
  match (if selection.isEmpty then Except.ok df
         else maskByLabel df (fun r => selection.contains r.label)) with
  | .error e => .error e
  | .ok df1 =>
    match (if query.isEmpty then Except.ok df1
           else maskByLabel df1 (fun r => regexSearch query r.label)) with
    | .error e => .error e
    | .ok df2 =>
        if df2.rows.isEmpty then .ok .noData else .ok (.dashboard df2.rows)

/-- Helper: when every attempt from `start` onward fails, the retry loop
performs all `n` remaining iterations, sleeps `delay` between consecutive
attempts, and re-raises the exception of the last attempt. -/
lemma fetchGo_allFail (outcome : Nat → Except Err Quote) (delay : Nat) (e : Nat → Err)
    (hfail : ∀ i, outcome i = .error (e i)) :
    ∀ n start, 1 ≤ n →
      fetchGo outcome delay start n =
        { result := .error (e (start + n - 1)), attempts := n,
          sleepLog := List.replicate (n - 1) delay } := by
  intro n
  induction n with
  | zero => intro start h; omega
  | succ r ih =>
    intro start _
    rcases Nat.eq_zero_or_pos r with hr | hr
    · subst hr
      simp [fetchGo, hfail start]
    · have hr' : r ≠ 0 := Nat.pos_iff_ne_zero.mp hr
      have := ih (start + 1) hr
      simp only [fetchGo, hfail start, if_neg hr', this]
      have h1 : start + 1 + r - 1 = start + (r + 1) - 1 := by omega
      have h2 : delay :: List.replicate (r - 1) delay = List.replicate (r + 1 - 1) delay := by
        have h3 : r + 1 - 1 = (r - 1) + 1 := by omega
        rw [h3, List.replicate_succ]
      rw [h1, h2]

/-- Helper: when the attempts from `start` fail `k` times and attempt
`start + k` succeeds with `q`, the loop returns `q` after `k + 1`
attempts and `k` sleeps, provided `k` is within the iteration budget. -/
lemma fetchGo_failThenOk (outcome : Nat → Except Err Quote) (delay : Nat) (q : Quote) :
    ∀ k n start, k < n →
      (∀ i, i < k → ∃ er, outcome (start + i) = .error er) →
      outcome (start + k) = .ok q →
      fetchGo outcome delay start n =
        { result := .ok (some q), attempts := k + 1,
          sleepLog := List.replicate k delay } := by
  intro k
  induction k with
  | zero =>
    intro n start hn _ hok
    obtain ⟨r, rfl⟩ : ∃ r, n = r + 1 := ⟨n - 1, by omega⟩
    simp only [Nat.add_zero] at hok
    simp [fetchGo, hok]
  | succ k ih =>
    intro n start hn hfail hok
    obtain ⟨r, rfl⟩ : ∃ r, n = r + 1 := ⟨n - 1, by omega⟩
    obtain ⟨er, her⟩ := hfail 0 (Nat.succ_pos k)
    simp only [Nat.add_zero] at her
    have hr : r ≠ 0 := by omega
    have hrec := ih r (start + 1) (by omega)
      (fun i hi => by
        obtain ⟨er', her'⟩ := hfail (i + 1) (by omega)
        exact ⟨er', by rw [← her']; congr 1; omega⟩)
      (by rw [← hok]; congr 1; omega)
    simp [fetchGo, her, if_neg hr, hrec, List.replicate_succ]

/-- C1: for every instrument spec and every maxAttempts >= 1, if every
attempt of the fetch fails, `fetch_indicator` performs exactly
`retries` attempts, sleeps `delay` between consecutive attempts
(`retries - 1` sleeps in total), and raises the failure of the last
attempt; the result is that exception, never a partial or degraded
Quote. -/
theorem fetch_allFail_raises_last (code : Str) (upstream : Nat → AttemptInput) (label : Str)
    (retries : Int) (delay : Nat) (e : Nat → Err)
    (hfail : ∀ i, runAttempt label (upstream i) = .error (e i))
    (hr : 1 ≤ retries) :
    fetch_indicator code upstream label retries delay =
      { result := .error (e (retries.toNat - 1)), attempts := retries.toNat,
        sleepLog := List.replicate (retries.toNat - 1) delay } := by
  have h1 : 1 ≤ retries.toNat := by omega
  have h2 := fetchGo_allFail (fun i => runAttempt label (upstream i)) delay e hfail
    retries.toNat 0 h1
  simpa [fetch_indicator] using h2

/-- Witness for C1: three attempts against a network that always fails
raise the network error after exactly 3 attempts and 2 sleeps of 1. -/
theorem fetch_allFail_raises_last_witness :
    fetch_indicator [] (fun _ => AttemptInput.netFail) [] 3 1 =
      { result := .error .network, attempts := 3, sleepLog := [1, 1] } :=
  fetch_allFail_raises_last [] (fun _ => AttemptInput.netFail) [] 3 1
    (fun _ => Err.network) (fun _ => rfl) (by decide)

/-- C6: if the upstream fails the first `k < retries` attempts and
succeeds on attempt `k + 1`, `fetch_indicator` returns the Quote of the
successful attempt after exactly `k + 1` attempts and `k` sleeps of
`delay`. -/
theorem fetch_fail_k_then_success (code : Str) (upstream : Nat → AttemptInput) (label : Str)
    (retries : Int) (delay k : Nat) (q : Quote)
    (hk : (k : Int) < retries)
    (hfail : ∀ i, i < k → ∃ er, runAttempt label (upstream i) = .error er)
    (hsucc : runAttempt label (upstream k) = .ok q) :
    fetch_indicator code upstream label retries delay =
      { result := .ok (some q), attempts := k + 1, sleepLog := List.replicate k delay } := by
  have hk' : k < retries.toNat := by omega
  have h2 := fetchGo_failThenOk (fun i => runAttempt label (upstream i)) delay q k
    retries.toNat 0 hk' (fun i hi => by simpa using hfail i hi) (by simpa using hsucc)
  simpa [fetch_indicator] using h2

/-- Witness for C6: one failed attempt followed by a successful one
(with `retries = 3`) returns the successful Quote after 2 attempts and
1 sleep. -/
theorem fetch_fail_k_then_success_witness :
    fetch_indicator []
      (fun i => if i = 0 then AttemptInput.netFail
                else AttemptInput.resp 200 (some (Json.obj [("data".toList, Json.obj [])])))
      [] 3 1 =
      { result := .ok (some { label := [], price := .finite 0,
                              change := .finite 0, pct := .finite 0 }),
        attempts := 2, sleepLog := [1] } :=
  fetch_fail_k_then_success []
    (fun i => if i = 0 then AttemptInput.netFail
              else AttemptInput.resp 200 (some (Json.obj [("data".toList, Json.obj [])])))
    [] 3 1 1 { label := [], price := .finite 0, change := .finite 0, pct := .finite 0 }
    (by decide)
    (fun i hi => by interval_cases i; exact ⟨Err.network, rfl⟩)
    rfl

/-- C10: calling `fetch_indicator` with `retries <= 0` never enters the
loop body: no attempt (hence no HTTP request) is performed, no sleep
occurs, nothing is raised, and the function returns None. -/
theorem fetch_nonpositive_retries_returns_none (code : Str) (upstream : Nat → AttemptInput)
    (label : Str) (retries : Int) (delay : Nat) (h : retries ≤ 0) :
    fetch_indicator code upstream label retries delay =
      { result := .ok none, attempts := 0, sleepLog := [] } := by
  have h0 : retries.toNat = 0 := by omega
  simp [fetch_indicator, h0, fetchGo]

/-- Witness for C10: `retries = -1` performs no attempt and returns
None even against an always-failing upstream. -/
theorem fetch_nonpositive_retries_returns_none_witness :
    fetch_indicator [] (fun _ => AttemptInput.netFail) [] (-1) 1 =
      { result := .ok none, attempts := 0, sleepLog := [] } :=
  fetch_nonpositive_retries_returns_none [] (fun _ => AttemptInput.netFail) [] (-1) 1
    (by decide)


/-- Helper: below the `raise_for_status` threshold, an attempt with a
decoded JSON body is the body processing. -/
lemma runAttempt_resp (label : Str) (status : Nat) (parsed : Json) (h : status < 400) :
    runAttempt label (.resp status (some parsed)) = parseQuote label parsed := by
  simp [runAttempt, Nat.not_le.mpr h]

/-- Helper: a dict body whose `data` key holds a dict proceeds to the
field extraction. -/
lemma parseQuote_data_obj (label : Str) (fields dfields : List (Str × Json))
    (h : jsonLookup fields ("data".toList) = some (Json.obj dfields)) :
    parseQuote label (Json.obj fields) = parseDataObj label dfields := by
  simp only [parseQuote, h]

/-- Helper: a numeric field present as a string is stripped and parsed. -/
lemma parseNumField_of_str (dfields : List (Str × Json)) (key : Str) (strip : Char) (s : Str)
    (h : jsonLookup dfields key = some (Json.str s)) :
    parseNumField dfields key strip = parseFieldStr s strip := by
  simp only [parseNumField, h]

/-- Helper: a field string whose stripped form parses yields its value. -/
lemma parseFieldStr_some (s : Str) (strip : Char) (v : PyFloat)
    (h : pyFloat (s.filter (fun c => c ≠ strip)) = some v) :
    parseFieldStr s strip = .ok v := by
  simp only [parseFieldStr, h]

/-- Helper: a field string whose stripped form fails to parse raises
the `ValueError` of `float()`. -/
lemma parseFieldStr_none (s : Str) (strip : Char)
    (h : pyFloat (s.filter (fun c => c ≠ strip)) = none) :
    parseFieldStr s strip = .error .parseError := by
  simp only [parseFieldStr, h]

/-- C3: over any ordered spec list, the batch loop returns exactly the
successful quotes in input order (so N - M entries when M of the N
specs fail), emits exactly one warning per failed spec (also in order),
and processes every spec — a per-instrument failure never aborts the
batch. -/
theorem fetch_all_partial_failure (fetchRes : InstrumentSpec → Except Err Quote)
    (specs : List InstrumentSpec) :
    (fetch_all_indicators fetchRes specs).1
        = specs.filterMap (fun s => (fetchRes s).toOption)
    ∧ (fetch_all_indicators fetchRes specs).2
        = specs.filterMap (fun s =>
            match fetchRes s with
            | .error er => some (s.label, er)
            | .ok _ => none)
    ∧ (fetch_all_indicators fetchRes specs).1.length
        = specs.length - (fetch_all_indicators fetchRes specs).2.length := by
  have main : (fetch_all_indicators fetchRes specs).1
        = specs.filterMap (fun s => (fetchRes s).toOption)
      ∧ (fetch_all_indicators fetchRes specs).2
        = specs.filterMap (fun s =>
            match fetchRes s with
            | .error er => some (s.label, er)
            | .ok _ => none)
      ∧ (fetch_all_indicators fetchRes specs).1.length
          + (fetch_all_indicators fetchRes specs).2.length = specs.length := by
    induction specs with
    | nil => exact ⟨rfl, rfl, rfl⟩
    | cons s rest ih =>
      obtain ⟨ih1, ih2, ih3⟩ := ih
      cases h : fetchRes s with
      | ok r =>
        have e1 : (fetch_all_indicators fetchRes (s :: rest)).1
            = r :: (fetch_all_indicators fetchRes rest).1 := by
          simp [fetch_all_indicators, h]
        have e2 : (fetch_all_indicators fetchRes (s :: rest)).2
            = (fetch_all_indicators fetchRes rest).2 := by
          simp [fetch_all_indicators, h]
        refine ⟨?_, ?_, ?_⟩
        · rw [e1, ih1, List.filterMap_cons]
          simp [h, Except.toOption]
        · rw [e2, ih2, List.filterMap_cons]
          simp [h]
        · rw [e1, e2, List.length_cons, List.length_cons]
          omega
      | error er =>
        have e1 : (fetch_all_indicators fetchRes (s :: rest)).1
            = (fetch_all_indicators fetchRes rest).1 := by
          simp [fetch_all_indicators, h]
        have e2 : (fetch_all_indicators fetchRes (s :: rest)).2
            = (s.label, er) :: (fetch_all_indicators fetchRes rest).2 := by
          simp [fetch_all_indicators, h]
        refine ⟨?_, ?_, ?_⟩
        · rw [e1, ih1, List.filterMap_cons]
          simp [h, Except.toOption]
        · rw [e2, ih2, List.filterMap_cons]
          simp [h]
        · rw [e1, e2, List.length_cons, List.length_cons]
          omega
  exact ⟨main.1, main.2.1, by omega⟩

/-- C4: a successful response whose `data` object carries the three
numeric string fields yields the Quote whose price and change are the
decimal parses of the comma-stripped strings, and whose pct is the
decimal parse of the percent-change string with its trailing percent
sign removed (the code strips every `%`; the hypothesis
`hpctOnlyTrailing` restricts to strings where `%` occurs only at the
end, where the two agree). -/
theorem fetch_valid_data_parses (label sp sc spct : Str) (status : Nat)
    (fields dfields : List (Str × Json)) (p c q : Rat)
    (hst : status < 400)
    (hdata : jsonLookup fields ("data".toList) = some (.obj dfields))
    (hf1 : jsonLookup dfields ("pricecurrent".toList) = some (.str sp))
    (hf2 : jsonLookup dfields ("pricechange".toList) = some (.str sc))
    (hf3 : jsonLookup dfields ("pricepercentchange".toList) = some (.str spct))
    (hp : pyFloat (sp.filter (fun ch => ch ≠ ',')) = some (.finite p))
    (hc : pyFloat (sc.filter (fun ch => ch ≠ ',')) = some (.finite c))
    (hpctOnlyTrailing : spct.filter (fun ch => ch ≠ '%') = stripTrailingPct spct)
    (hq : pyFloat (stripTrailingPct spct) = some (.finite q)) :
    runAttempt label (.resp status (some (.obj fields))) =
      .ok { label := label, price := .finite p, change := .finite c, pct := .finite q } := by
  rw [runAttempt_resp label status _ hst, parseQuote_data_obj label fields dfields hdata]
  have h1 : parseNumField dfields ("pricecurrent".toList) ',' = .ok (.finite p) := by
    rw [parseNumField_of_str _ _ _ _ hf1]
    exact parseFieldStr_some _ _ _ hp
  have h2 : parseNumField dfields ("pricechange".toList) ',' = .ok (.finite c) := by
    rw [parseNumField_of_str _ _ _ _ hf2]
    exact parseFieldStr_some _ _ _ hc
  have h3 : parseNumField dfields ("pricepercentchange".toList) '%' = .ok (.finite q) := by
    rw [parseNumField_of_str _ _ _ _ hf3]
    refine parseFieldStr_some _ _ _ ?_
    rw [hpctOnlyTrailing, hq]
  simp only [parseDataObj, h1, h2, h3]

/-- Witness for C4: the specification's example — label "Nifty IT",
data pricecurrent "34,210.55", pricechange "-120.30",
pricepercentchange "-0.35%" — yields the Quote with price 34210.55,
change -120.30, pct -0.35. -/
theorem fetch_valid_data_parses_witness :
    runAttempt ("Nifty IT".toList)
      (.resp 200 (some (Json.obj
        [("data".toList, Json.obj
          [("pricecurrent".toList, Json.str "34,210.55".toList),
           ("pricechange".toList, Json.str "-120.30".toList),
           ("pricepercentchange".toList, Json.str "-0.35%".toList)])]))) =
      .ok { label := "Nifty IT".toList,
            price := .finite 34210.55, change := .finite (-120.30),
            pct := .finite (-0.35) } :=
  fetch_valid_data_parses ("Nifty IT".toList)
    ("34,210.55".toList) ("-120.30".toList) ("-0.35%".toList) 200 _ _
    34210.55 (-120.30) (-0.35)
    (by decide) rfl rfl rfl rfl
    (by
      have hlit : (34210.55 : Rat) = mkRat 3421055 100 := by norm_num [Rat.mkRat_eq_div]
      rw [hlit]; rfl)
    (by
      have hlit : (-120.30 : Rat) = mkRat (-12030) 100 := by norm_num [Rat.mkRat_eq_div]
      rw [hlit]; rfl)
    rfl
    (by
      have hlit : (-0.35 : Rat) = mkRat (-35) 100 := by norm_num [Rat.mkRat_eq_div]
      rw [hlit]; rfl)

/-- C2 counterexample: an upstream `data` object with every numeric
field missing does NOT fail the attempt — `data.get(key, "0")` defaults
each field to "0" and the fetch returns a Quote with price, change and
pct all 0 (first conjunct), contradicting the claim that a missing
numeric field is treated as a fetch failure; moreover a price string
"inf", which Python `float()` accepts, yields a Quote with a
non-finite price (second conjunct), contradicting the claim that Quote
fields are always finite decimals. -/
theorem missing_field_defaults_counterexample :
    runAttempt ("Nifty IT".toList)
      (.resp 200 (some (Json.obj [("data".toList, Json.obj [])]))) =
      .ok { label := "Nifty IT".toList, price := .finite 0,
            change := .finite 0, pct := .finite 0 }
    ∧ runAttempt ("Nifty IT".toList)
      (.resp 200 (some (Json.obj [("data".toList,
        Json.obj [("pricecurrent".toList, Json.str "inf".toList)])]))) =
      .ok { label := "Nifty IT".toList, price := .inf false,
            change := .finite 0, pct := .finite 0 } := ⟨rfl, rfl⟩

/-- C2 amended: a numeric field that is present as a string on which
`float()` fails is a fetch failure for the attempt (first conjunct, for
the price field the code evaluates first); but a missing field is NOT a
failure — all three missing default to the string "0" and yield the
Quote with zeros (second conjunct); and a present field carries
whatever value `float()` produces into the Quote, including the
non-finite `inf`/`nan` values (third conjunct), so the fields are not
always finite. -/
theorem quote_fields_parse_or_default (label : Str) (status : Nat)
    (fields dfields : List (Str × Json)) (sp : Str)
    (hst : status < 400)
    (hdata : jsonLookup fields ("data".toList) = some (.obj dfields)) :
    (jsonLookup dfields ("pricecurrent".toList) = some (.str sp) →
      pyFloat (sp.filter (fun ch => ch ≠ ',')) = none →
      runAttempt label (.resp status (some (.obj fields))) = .error .parseError)
    ∧ (jsonLookup dfields ("pricecurrent".toList) = none →
       jsonLookup dfields ("pricechange".toList) = none →
       jsonLookup dfields ("pricepercentchange".toList) = none →
       runAttempt label (.resp status (some (.obj fields))) =
         .ok { label := label, price := .finite 0, change := .finite 0, pct := .finite 0 })
    ∧ (∀ v : PyFloat,
       jsonLookup dfields ("pricecurrent".toList) = some (.str sp) →
       pyFloat (sp.filter (fun ch => ch ≠ ',')) = some v →
       jsonLookup dfields ("pricechange".toList) = none →
       jsonLookup dfields ("pricepercentchange".toList) = none →
       runAttempt label (.resp status (some (.obj fields))) =
         .ok { label := label, price := v, change := .finite 0, pct := .finite 0 }) := by
  rw [runAttempt_resp label status _ hst, parseQuote_data_obj label fields dfields hdata]
  refine ⟨?_, ?_, ?_⟩
  · intro hf1 hbad
    have h1 : parseNumField dfields ("pricecurrent".toList) ',' = .error Err.parseError := by
      rw [parseNumField_of_str _ _ _ _ hf1]
      exact parseFieldStr_none _ _ hbad
    simp only [parseDataObj, h1]
  · intro hm1 hm2 hm3
    have h1 : parseNumField dfields ("pricecurrent".toList) ',' = .ok (.finite 0) := by
      simp only [parseNumField, hm1]
      rfl
    have h2 : parseNumField dfields ("pricechange".toList) ',' = .ok (.finite 0) := by
      simp only [parseNumField, hm2]
      rfl
    have h3 : parseNumField dfields ("pricepercentchange".toList) '%' = .ok (.finite 0) := by
      simp only [parseNumField, hm3]
      rfl
    simp only [parseDataObj, h1, h2, h3]
  · intro v hf1 hv hm2 hm3
    have h1 : parseNumField dfields ("pricecurrent".toList) ',' = .ok v := by
      rw [parseNumField_of_str _ _ _ _ hf1]
      exact parseFieldStr_some _ _ _ hv
    have h2 : parseNumField dfields ("pricechange".toList) ',' = .ok (.finite 0) := by
      simp only [parseNumField, hm2]
      rfl
    have h3 : parseNumField dfields ("pricepercentchange".toList) '%' = .ok (.finite 0) := by
      simp only [parseNumField, hm3]
      rfl
    simp only [parseDataObj, h1, h2, h3]

/-- Witness for the amended C2: a non-numeric price string "abc" fails
the attempt with a parse error, an empty data dict produces the
all-zero Quote, and a price string "inf" produces a Quote with an
infinite price. -/
theorem quote_fields_parse_or_default_witness :
    runAttempt []
      (.resp 200 (some (Json.obj [("data".toList,
        Json.obj [("pricecurrent".toList, Json.str "abc".toList)])]))) =
        .error .parseError
    ∧ runAttempt []
      (.resp 200 (some (Json.obj [("data".toList, Json.obj [])]))) =
        .ok { label := [], price := .finite 0, change := .finite 0, pct := .finite 0 }
    ∧ runAttempt []
      (.resp 200 (some (Json.obj [("data".toList,
        Json.obj [("pricecurrent".toList, Json.str "inf".toList)])]))) =
        .ok { label := [], price := .inf false, change := .finite 0, pct := .finite 0 } :=
  ⟨(quote_fields_parse_or_default [] 200
      [("data".toList, Json.obj [("pricecurrent".toList, Json.str "abc".toList)])]
      [("pricecurrent".toList, Json.str "abc".toList)] ("abc".toList)
      (by decide) rfl).1 rfl rfl,
   (quote_fields_parse_or_default [] 200
      [("data".toList, Json.obj [])] [] []
      (by decide) rfl).2.1 rfl rfl rfl,
   (quote_fields_parse_or_default [] 200
      [("data".toList, Json.obj [("pricecurrent".toList, Json.str "inf".toList)])]
      [("pricecurrent".toList, Json.str "inf".toList)] ("inf".toList)
      (by decide) rfl).2.2 (.inf false) rfl rfl rfl rfl⟩

/-- C5: a successful HTTP response whose body is not a keyed mapping,
lacks a `data` key, or has a null `data` value raises the `ValueError`
(MalformedResponse) for that attempt (first three conjuncts); this
failure obeys the same retry policy, so an upstream that always returns
a null `data` makes `fetch_indicator` fail every attempt and raise that
error after exactly `retries` attempts (last conjunct). -/
theorem malformed_response_retry_policy :
    (∀ label status (body : Json), status < 400 → (∀ fields, body ≠ Json.obj fields) →
      runAttempt label (.resp status (some body)) = .error (.malformed label))
    ∧ (∀ label status fields, status < 400 → jsonLookup fields ("data".toList) = none →
      runAttempt label (.resp status (some (Json.obj fields))) = .error (.malformed label))
    ∧ (∀ label status fields, status < 400 →
        jsonLookup fields ("data".toList) = some Json.null →
      runAttempt label (.resp status (some (Json.obj fields))) = .error (.malformed label))
    ∧ (∀ code upstream label (retries : Int) (delay : Nat), 1 ≤ retries →
        (∀ i, upstream i =
          AttemptInput.resp 200 (some (Json.obj [("data".toList, Json.null)]))) →
      fetch_indicator code upstream label retries delay =
        { result := .error (.malformed label), attempts := retries.toNat,
          sleepLog := List.replicate (retries.toNat - 1) delay }) := by
  refine ⟨?_, ?_, ?_, ?_⟩
  · intro label status body hst hbody
    rw [runAttempt_resp label status _ hst]
    cases body with
    | obj fields => exact absurd rfl (hbody fields)
    | null => rfl
    | bool b => rfl
    | num r => rfl
    | str s => rfl
    | arr es => rfl
  · intro label status fields hst h
    rw [runAttempt_resp label status _ hst]
    simp only [parseQuote, h]
  · intro label status fields hst h
    rw [runAttempt_resp label status _ hst]
    simp only [parseQuote, h]
  · intro code upstream label retries delay hr hup
    have hfail : ∀ i, runAttempt label (upstream i) = .error (Err.malformed label) := by
      intro i
      rw [hup i]
      rfl
    have h1 : 1 ≤ retries.toNat := by omega
    have h2 := fetchGo_allFail (fun i => runAttempt label (upstream i)) delay
      (fun _ => Err.malformed label) hfail retries.toNat 0 h1
    simpa [fetch_indicator] using h2

/-- Witness for C5: a body with no `data` key raises the malformed
error, and an upstream that always answers with a null `data` makes a
2-attempt fetch raise it after 2 attempts and 1 sleep. -/
theorem malformed_response_retry_policy_witness :
    runAttempt [] (.resp 200 (some (Json.obj []))) = .error (.malformed [])
    ∧ fetch_indicator []
        (fun _ => AttemptInput.resp 200 (some (Json.obj [("data".toList, Json.null)])))
        [] 2 1 =
      { result := .error (.malformed []), attempts := 2, sleepLog := [1] } :=
  ⟨malformed_response_retry_policy.2.1 [] 200 [] (by decide) rfl,
   malformed_response_retry_policy.2.2.2 [] _ [] 2 1 (by decide) (fun _ => rfl)⟩

/-- C7: two cached calls separated by less than ttl trigger exactly one
batch fetch — the second returns the stored QuoteSet with no new fetch
— and a further call once the stored entry's age exceeds ttl triggers
exactly one more fetch and replaces the entry wholesale; the configured
ttl is 300. -/
theorem cache_one_fetch_per_ttl_window (batch1 batch2 batch3 : List Quote)
    (ttl t0 t1 t2 : Nat)
    (h01 : t1 - t0 < ttl)
    (h02 : t2 - t0 > ttl) :
    (getOrFetch batch1 ttl t0 { entry := none }).fetches = 1
    ∧ getOrFetch batch2 ttl t1 (getOrFetch batch1 ttl t0 { entry := none }).state
        = { value := batch1, state := { entry := some (batch1, t0) }, fetches := 0 }
    ∧ getOrFetch batch3 ttl t2
          (getOrFetch batch2 ttl t1 (getOrFetch batch1 ttl t0 { entry := none }).state).state
        = { value := batch3, state := { entry := some (batch3, t2) }, fetches := 1 }
    ∧ CACHE_TTL = 300 := by
  have hn1 : ¬ t1 - t0 > ttl := by omega
  refine ⟨rfl, ?_, ?_, rfl⟩
  · simp [getOrFetch, hn1]
  · simp [getOrFetch, hn1, h02]

/-- Witness for C7: with ttl 300, calls at times 0, 100 and 400 — the
second call is served from the cache, the third refreshes it. -/
theorem cache_one_fetch_per_ttl_window_witness :
    (getOrFetch [] 300 0 { entry := none }).fetches = 1
    ∧ getOrFetch [] 300 100 (getOrFetch [] 300 0 { entry := none }).state
        = { value := [], state := { entry := some ([], 0) }, fetches := 0 }
    ∧ getOrFetch [] 300 400
          (getOrFetch [] 300 100 (getOrFetch [] 300 0 { entry := none }).state).state
        = { value := [], state := { entry := some ([], 400) }, fetches := 1 }
    ∧ CACHE_TTL = 300 :=
  cache_one_fetch_per_ttl_window [] [] [] 300 0 100 400 (by decide) (by decide)

/-- C8 counterexample: the search query is passed to pandas
`str.contains` as a regular expression, not a literal substring — for
the query "." the code keeps the row labelled "Nifty IT" (the wildcard
matches any character) although "." is not a substring of the label, so
the code filter and the specification's substring filter disagree. -/
theorem filter_regex_not_substring_counterexample :
    applyFilters [{ label := "Nifty IT".toList, price := .finite 1,
                    change := .finite 1, pct := .finite 1 }]
        ["Nifty IT".toList] ['.'] ≠
      specFilter [{ label := "Nifty IT".toList, price := .finite 1,
                    change := .finite 1, pct := .finite 1 }]
        ["Nifty IT".toList] ['.'] := by decide

/-- C8 amended: with a non-empty selection and a query inside the
modelled regex fragment (literal characters and the `.` wildcard; no
other metacharacters, which would invoke regex features — or raise
`re.error` — outside this model), the filtering returns exactly the
quotes whose label is a member of the selection and — when the query is
non-empty — whose label matches the query as a case-insensitive regular
expression under `re.search` semantics (not a literal substring),
preserving the original order of the QuoteSet. -/
theorem filter_selection_and_regex (qs : List Quote) (selection : List Str) (query : Str)
    (hsel : selection ≠ []) (_hfrag : inRegexFragment query = true) :
    applyFilters qs selection query =
      qs.filter (fun r => selection.contains r.label
        && (query.isEmpty || regexSearch query r.label))
    ∧ List.Sublist (applyFilters qs selection query) qs := by
  have hs : selection.isEmpty = false := by
    cases selection
    · exact absurd rfl hsel
    · rfl
  have main : applyFilters qs selection query
      = qs.filter (fun r => selection.contains r.label
          && (query.isEmpty || regexSearch query r.label)) := by
    by_cases hq : query.isEmpty
    · simp [applyFilters, hs, hq]
    · have hq' : query.isEmpty = false := by simpa using hq
      simp [applyFilters, hs, hq', List.filter_filter]
      refine List.filter_congr ?_
      intro r _
      simp [Bool.and_comm]
  exact ⟨main, main ▸ List.filter_sublist qs⟩

/-- Witness for the amended C8: selecting "Nifty IT" with query "it"
keeps exactly the "Nifty IT" row (case-insensitive match). -/
theorem filter_selection_and_regex_witness :
    applyFilters
        [{ label := "Nifty IT".toList, price := .finite 1, change := .finite 1,
           pct := .finite 1 },
         { label := "Nifty Auto".toList, price := .finite 2, change := .finite 2,
           pct := .finite 2 }]
        ["Nifty IT".toList] ("it".toList) =
      List.filter
        (fun r => (["Nifty IT".toList] : List Str).contains r.label
          && (("it".toList : Str).isEmpty || regexSearch ("it".toList) r.label))
        [{ label := "Nifty IT".toList, price := .finite 1, change := .finite 1,
           pct := .finite 1 },
         { label := "Nifty Auto".toList, price := .finite 2, change := .finite 2,
           pct := .finite 2 }]
    ∧ List.Sublist
        (applyFilters
          [{ label := "Nifty IT".toList, price := .finite 1, change := .finite 1,
             pct := .finite 1 },
           { label := "Nifty Auto".toList, price := .finite 2, change := .finite 2,
             pct := .finite 2 }]
          ["Nifty IT".toList] ("it".toList))
        [{ label := "Nifty IT".toList, price := .finite 1, change := .finite 1,
           pct := .finite 1 },
         { label := "Nifty Auto".toList, price := .finite 2, change := .finite 2,
           pct := .finite 2 }] :=
  filter_selection_and_regex
    [{ label := "Nifty IT".toList, price := .finite 1, change := .finite 1,
       pct := .finite 1 },
     { label := "Nifty Auto".toList, price := .finite 2, change := .finite 2,
       pct := .finite 2 }]
    ["Nifty IT".toList] ("it".toList) (by decide) (by decide)

/-- C9: evaluation at the failing input.  When every fetch fails the
records list is empty and `pd.DataFrame([])` has no label column, so a
non-empty sector selection makes `df["label"]` raise KeyError before
the empty-frame check is reached (first conjunct) — the rendering path
crashes instead of showing the no-data indication.  With no active
filter the same empty records do render the no-data warning (second
conjunct), which is the behaviour the claim expects everywhere. -/
theorem render_empty_quoteset_behaviour :
    renderPipeline [] ["Nifty IT".toList] [] = .error .keyError
    ∧ renderPipeline [] [] [] = .ok .noData := ⟨rfl, rfl⟩
